import Mathlib

/-!
Verification of the PromptiTron client-side controller
(`src/unnamed/part_000`, the `PrompitronApp` web-UI class, and
`src/Old_files/frontend/script.js`, the task-pipeline front end).

The JavaScript is shallowly embedded: dynamic JS values become the
inductive `JsVal`; property access that can throw a `TypeError`
(reading a property of `null`/`undefined`, or calling a missing method)
is modelled in the `Except String` monad, the error carrying the
message of the thrown exception; `fetch`/`.json()` round trips to the
remote service are modelled by an oracle function from the request to
`Except String JsVal` (`.error` = rejected promise); the requests a
handler issues are collected, in order, in an explicit trace list.
-/

/-- A JavaScript runtime value.  Numbers are modelled as integers: every
numeric value the claims exercise (question counts, daily hours,
relevance scores) is integral, and no claim depends on float semantics. -/
inductive JsVal where
  | null
  | undefined
  | bool (b : Bool)
  | num (n : Int)
  | str (s : String)
  | arr (elems : List JsVal)
  | obj (fields : List (String × JsVal))

/-- JavaScript truthiness (`if (v)`, `v && w`, `!v`). -/
def truthy : JsVal → Bool
  | .null => false
  | .undefined => false
  | .bool b => b
  | .num n => n != 0
  | .str s => s != ""
  | .arr _ => true
  | .obj _ => true

/-- `Array.isArray(v)`. -/
def isArr : JsVal → Bool
  | .arr _ => true
  | _ => false

/-- JavaScript property access `v.k`.  Reading a property of `null` or
`undefined` throws a `TypeError`; an object yields the field value or
`undefined`; any other primitive or an array yields `undefined` (none of
the accessed keys is a built-in array/primitive property). -/
def getProp (v : JsVal) (k : String) : Except String JsVal :=
  match v with
  | .null => .error ("Cannot read properties of null: " ++ k)
  | .undefined => .error ("Cannot read properties of undefined: " ++ k)
  | .obj fields =>
    .ok (match fields.lookup k with
         | some x => x
         | none => .undefined)
  | _ => .ok .undefined

/-- The value of `v.k` when the access cannot throw; total variant used
to state predicates about well-shaped payloads. -/
def getPropD (v : JsVal) (k : String) : JsVal :=
  match getProp v k with
  | .ok x => x
  | .error _ => .undefined

/-- JavaScript strict equality `===` as used on the payload fields the
code compares.  Primitives compare by value; two distinct objects or
arrays reaching this comparison come from different parse paths and are
therefore distinct references, so they compare unequal. -/
def jsStrictEq : JsVal → JsVal → Bool
  | .null, .null => true
  | .undefined, .undefined => true
  | .bool a, .bool b => a == b
  | .num a, .num b => a == b
  | .str a, .str b => a == b
  | _, _ => false

/-- JavaScript `a || b`: the left operand when truthy, otherwise the right. -/
def jsOr (a b : JsVal) : JsVal :=
  if truthy a then a else b

mutual

/-- JavaScript string coercion `String(v)` as performed by template
literals and `textContent` assignment. -/
def jsToString : JsVal → String
  | .null => "null"
  | .undefined => "undefined"
  | .bool b => if b then "true" else "false"
  | .num n => toString n
  | .str s => s
  | .arr xs => jsArrToString xs
  | .obj _ => "[object Object]"

/-- `Array.prototype.toString` = `join(",")`: elements separated by
commas, `null`/`undefined` elements rendered as the empty string. -/
def jsArrToString : List JsVal → String
  | [] => ""
  | [.null] => ""
  | [.undefined] => ""
  | [x] => jsToString x
  | x :: y :: rest =>
    (match x with
     | .null => ""
     | .undefined => ""
     | v => jsToString v) ++ "," ++ jsArrToString (y :: rest)

end

/-- `Array.prototype.join(sep)`: `null`/`undefined` elements become the
empty string. -/
def jsJoinWith (sep : String) : List JsVal → String
  | [] => ""
  | x :: rest =>
    (match x with
     | .null => ""
     | .undefined => ""
     | v => jsToString v)
    ++ match rest with
       | [] => ""
       | _ :: _ => sep ++ jsJoinWith sep rest

/-- JavaScript `String.prototype.trim()`: strip leading and trailing
whitespace. -/
def jsTrim (s : String) : String :=
  ⟨((s.data.dropWhile Char.isWhitespace).reverse.dropWhile Char.isWhitespace).reverse⟩

/-- Whether an `Except`-modelled JS computation completed without
throwing. -/
def succeeded {α : Type} : Except String α → Bool
  | .ok _ => true
  | .error _ => false

/-- JavaScript `parseInt(s)` (radix 10): skip leading whitespace, an
optional sign, then the longest digit prefix; `none` models `NaN` when
no digit is found.  (The hexadecimal `0x` form of `parseInt` is not
modelled; every parsed form value in this code is a decimal digit
string.) -/
def takeDigitsVal : List Char → Option Nat → Option Nat
  | [], acc => acc
  | c :: rest, acc =>
    if c.isDigit then takeDigitsVal rest (some ((acc.getD 0) * 10 + (c.toNat - 48)))
    else acc

def parseIntJS (s : String) : Option Int :=
  let l := s.data.dropWhile (fun c => c = ' ' ∨ c = '\t' ∨ c = '\n' ∨ c = '\r')
  match l with
  | '-' :: rest => (takeDigitsVal rest none).map (fun n => -(n : Int))
  | '+' :: rest => (takeDigitsVal rest none).map (fun n => (n : Int))
  | _ => (takeDigitsVal l none).map (fun n => (n : Int))

/-!
`formatMessage` / `escapeHtml` (src/unnamed/part_000, lines 334-358).

`escapeHtml(text)` assigns `div.textContent = text` and reads back
`div.innerHTML`, which escapes `&`, `<` and `>` in a text node.
`formatMessage` then applies, in order, the regex replacements
`/\*\*(.*?)\*\*/g` (bold), `/\*(.*?)\*/g` (italics), `/\n/g` (line
breaks), `/^\- (.+)$/gm` (list items) and the single, non-global
`/(<li>.*<\/li>)/s` wrap.  The lazy-quantifier replacements are
embedded as left-to-right scans: at each opening delimiter the shortest
newline-free run up to the next closing delimiter is taken (a `.`
without the `s` flag does not match a newline); if no close exists the
scan advances one character, exactly as the regex engine does.  The
recursions carry a fuel argument bounded by the list length, which
strictly decreases at every step, so the fuel is never exhausted.
-/

def escapeHtmlChar (c : Char) : List Char :=
  if c = '&' then "&amp;".data
  else if c = '<' then "&lt;".data
  else if c = '>' then "&gt;".data
  else [c]

def escapeHtml (s : String) : String :=
  ⟨(s.data.map escapeHtmlChar).flatten⟩

/-- Shortest newline-free run up to the next `**`, with the remainder
after that close; `none` when no close precedes a newline or the end. -/
def findBoldClose : List Char → Option (List Char × List Char)
  | '*' :: '*' :: rest => some ([], rest)
  | '\n' :: _ => none
  | c :: rest => (findBoldClose rest).map (fun p => (c :: p.1, p.2))
  | [] => none

def replaceBoldFuel : Nat → List Char → List Char
  | 0, l => l
  | _ + 1, [] => []
  | fuel + 1, '*' :: '*' :: rest =>
    match findBoldClose rest with
    | some (content, rest') =>
      "<strong>".data ++ content ++ "</strong>".data ++ replaceBoldFuel fuel rest'
    | none => '*' :: replaceBoldFuel fuel ('*' :: rest)
  | fuel + 1, c :: rest => c :: replaceBoldFuel fuel rest

def replaceBold (s : String) : String :=
  ⟨replaceBoldFuel s.data.length s.data⟩

/-- Shortest newline-free run up to the next `*`. -/
def findItalClose : List Char → Option (List Char × List Char)
  | '*' :: rest => some ([], rest)
  | '\n' :: _ => none
  | c :: rest => (findItalClose rest).map (fun p => (c :: p.1, p.2))
  | [] => none

def replaceItalicFuel : Nat → List Char → List Char
  | 0, l => l
  | _ + 1, [] => []
  | fuel + 1, '*' :: rest =>
    match findItalClose rest with
    | some (content, rest') =>
      "<em>".data ++ content ++ "</em>".data ++ replaceItalicFuel fuel rest'
    | none => '*' :: replaceItalicFuel fuel rest
  | fuel + 1, c :: rest => c :: replaceItalicFuel fuel rest

def replaceItalic (s : String) : String :=
  ⟨replaceItalicFuel s.data.length s.data⟩

def replaceBr (s : String) : String :=
  ⟨(s.data.map (fun c => if c = '\n' then "<br>".data else [c])).flatten⟩

def leadsWith : List Char → List Char → Bool
  | [], _ => true
  | _ :: _, [] => false
  | p :: ps, c :: cs => (p == c) && leadsWith ps cs

/-- Split on newlines (the line structure `^`/`$` see under the `m`
flag). -/
def splitLinesAux : List Char → List (List Char)
  | [] => [[]]
  | '\n' :: rest => [] :: splitLinesAux rest
  | c :: rest =>
    match splitLinesAux rest with
    | [] => [[c]]
    | l :: ls => (c :: l) :: ls

def joinLines : List String → String
  | [] => ""
  | l :: ls =>
    match ls with
    | [] => l
    | _ :: _ => l ++ "\n" ++ joinLines ls

/-- One line of `/^\- (.+)$/gm`: a line starting with `"- "` followed by
at least one character becomes a list item. -/
def listifyLine (line : String) : String :=
  if leadsWith "- ".data line.data && decide (2 < line.data.length) then
    "<li>" ++ (⟨line.data.drop 2⟩ : String) ++ "</li>"
  else line

def replaceLists (s : String) : String :=
  joinLines ((splitLinesAux s.data).map (fun l => listifyLine ⟨l⟩))

/-- Index of the first occurrence of `pat`. -/
def firstIdxAux (pat : List Char) : List Char → Option Nat
  | [] => if leadsWith pat [] then some 0 else none
  | l@(_ :: rest) =>
    if leadsWith pat l then some 0 else (firstIdxAux pat rest).map (· + 1)

/-- Index of the last occurrence of `pat`. -/
def lastIdxAux (pat : List Char) : List Char → Option Nat
  | [] => if leadsWith pat [] then some 0 else none
  | l@(_ :: rest) =>
    match lastIdxAux pat rest with
    | some j => some (j + 1)
    | none => if leadsWith pat l then some 0 else none

/-- The non-global `formatted.replace(/(<li>.*<\/li>)/s, "<ul>$1</ul>")`:
with `s`-flag dot and a greedy star, the match runs from the first
`<li>` to the last `</li>` that starts at or after its end; if there is
no such pair the string is unchanged. -/
def wrapUl (s : String) : String :=
  let cs := s.data
  match firstIdxAux "<li>".data cs with
  | none => s
  | some i =>
    match lastIdxAux "</li>".data cs with
    | none => s
    | some j =>
      if i + 4 ≤ j then
        ⟨cs.take i ++ "<ul>".data ++ ((cs.drop i).take (j + 5 - i)) ++ "</ul>".data ++ cs.drop (j + 5)⟩
      else s

/-- `formatMessage` (src/unnamed/part_000, lines 334-352): escape first,
then the markup substitutions in source order. -/
def formatMessage (message : String) : String :=
  wrapUl (replaceLists (replaceBr (replaceItalic (replaceBold (escapeHtml message)))))

/-- Substring test used to state the escape-before-format property. -/
def hasSub (s pat : String) : Bool :=
  (firstIdxAux pat.data s.data).isSome

/-!
Conversation loop (src/unnamed/part_000, lines 239-332).

The chat container is the ordered list of message entries appended by
`addMessageToChat` and `addLoadingToChat`; `removeLoadingFromChat`
removes the first element carrying the `loading-message` class
(`document.querySelector` returns the first match in document order),
if any.  `sendAIMessage` validates the trimmed input, appends the user
entry and the loading placeholder, performs the remote call, and on
resolution removes the placeholder and appends a terminal assistant
entry; a `TypeError` thrown inside the `try` block (in particular by
the calls to the nowhere-defined methods `displayQuestions` and
`displayStudyPlan`) lands in the `catch` block, which removes any
remaining placeholder and appends a connection-error entry.  The
synchronous part up to the `fetch` suspension point is
`sendAIMessagePhase1`; the continuation after the response settles is
`sendAIMessageResolve`.
-/

inductive Speaker where
  | user
  | assistant
deriving DecidableEq, Repr

structure ConversationEntry where
  speaker : Speaker
  text : String
  isPending : Bool
deriving DecidableEq, Repr

/-- `addMessageToChat(message, type)`: appends a terminal entry. -/
def addMessageToChat (message : String) (ty : Speaker) (h : List ConversationEntry) :
    List ConversationEntry :=
  h ++ [⟨ty, message, false⟩]

/-- The `loading-message` placeholder appended by `addLoadingToChat`. -/
def loadingEntry : ConversationEntry :=
  ⟨.assistant, "AI düşünüyor...", true⟩

def addLoadingToChat (h : List ConversationEntry) : List ConversationEntry :=
  h ++ [loadingEntry]

/-- `removeLoadingFromChat` (lines 327-332): remove the first pending
placeholder if one exists, otherwise do nothing. -/
def removeLoadingFromChat : List ConversationEntry → List ConversationEntry
  | [] => []
  | e :: rest => if e.isPending then rest else e :: removeLoadingFromChat rest

def countPending (h : List ConversationEntry) : Nat :=
  h.countP (fun e => e.isPending)

/-- The synchronous prefix of `sendAIMessage` on a non-empty trimmed
message: append the user entry, then the loading placeholder. -/
def sendAIMessagePhase1 (message : String) (h : List ConversationEntry) :
    List ConversationEntry :=
  addLoadingToChat (addMessageToChat message .user h)

/-- The body of the `try` block after `data = await response.json()` and
`removeLoadingFromChat()`: branch on `data.error`, append the assistant
entry, then dispatch `data.questions` / `data.study_plan` to the missing
renderer methods.  Returns the updated history together with the message
of the exception thrown inside the block, if any (state changes made
before the throw persist). -/
def sendTryBody (data : JsVal) (h : List ConversationEntry) :
    List ConversationEntry × Option String :=
  match getProp data "error" with
  | .error m => (h, some m)
  | .ok ev =>
    if truthy ev then
      (addMessageToChat ("Hata: " ++ jsToString ev) .assistant h, none)
    else
      match getProp data "response", getProp data "text" with
      | .ok resp, .ok txt =>
        let assistantMessage := jsToString (jsOr (jsOr resp txt) (.str "Yanıt alınamadı"))
        let h3 := addMessageToChat assistantMessage .assistant h
        match getProp data "questions" with
        | .error m => (h3, some m)
        | .ok q =>
          if truthy q then (h3, some "this.displayQuestions is not a function")
          else
            match getProp data "study_plan" with
            | .error m => (h3, some m)
            | .ok sp =>
              if truthy sp then (h3, some "this.displayStudyPlan is not a function")
              else (h3, none)
      | .error m, _ => (h, some m)
      | _, .error m => (h, some m)

/-- The continuation of `sendAIMessage` once the remote call settles:
`.error` is a rejected `fetch`/`json()` promise (handled by the
`catch`); `.ok data` runs the rest of the `try` block, whose own throw
is also handled by the `catch`.  The `catch` removes any remaining
placeholder and appends the connection-error entry. -/
def sendAIMessageResolve (fetchResult : Except String JsVal)
    (h : List ConversationEntry) : List ConversationEntry :=
  match fetchResult with
  | .error m =>
    addMessageToChat ("Bağlantı hatası: " ++ m) .assistant (removeLoadingFromChat h)
  | .ok data =>
    match sendTryBody data (removeLoadingFromChat h) with
    | (h', none) => h'
    | (h', some m) =>
      addMessageToChat ("Bağlantı hatası: " ++ m) .assistant (removeLoadingFromChat h')

inductive SendOutcome where
  | validationError
  | completed
deriving DecidableEq, Repr

/-- The request body `{ message, context: { student_profile } }`. -/
def chatRequestBody (profile : JsVal) (message : String) : JsVal :=
  .obj [("message", .str message), ("context", .obj [("student_profile", profile)])]

/-- `sendAIMessage` (lines 239-291) end to end, against a remote oracle.
Returns the outcome, the final history, and the trace of issued remote
request bodies.  The early return on an empty trimmed message is the
validation-failure branch of the spec (`ValidationError`): it touches
neither the history nor the network. -/
def sendAIMessage (profile : JsVal) (input : String) (h : List ConversationEntry)
    (remote : JsVal → Except String JsVal) :
    SendOutcome × List ConversationEntry × List JsVal :=
  let message := jsTrim input
  if message = "" then (.validationError, h, [])
  else
    let body := chatRequestBody profile message
    (.completed, sendAIMessageResolve (remote body) (sendAIMessagePhase1 message h), [body])

/-!
Task pipeline (src/Old_files/frontend/script.js).

The transcript-form submit handler is the acquisition chain:
`download` with `{ url }`, then `transcribe` with
`{ audio_path: <result of download> }`.  The action-button click
handler guards every task except `export_pdf` on a truthy
`window.currentTranscript`; the `search_similar` task issues
`build_vector_store` and then `search_similar`; all other tasks issue a
single `{ text: currentTranscript }` request.  Handlers are modelled
against a deterministic remote oracle and return an outcome together
with the ordered trace of issued requests; `.error` oracle results are
rejected promises, routing control to the `catch` block.
-/

structure TaskRequest where
  task : String
  body : JsVal

inductive SubmitOutcome where
  | success (transcript : JsVal)
  | failure

/-- The `download` request built by the submit handler. -/
def downloadReq (url : String) : TaskRequest :=
  ⟨"download", .obj [("url", .str url)]⟩

/-- The `transcribe` request built from the resolved download result. -/
def transcribeReq (audioPath : JsVal) : TaskRequest :=
  ⟨"transcribe", .obj [("audio_path", audioPath)]⟩

/-- The `transcript-form` submit handler (script.js, lines 1-34).  On
success the raw `result` value of the transcription response becomes
`window.currentTranscript`; any rejected promise or `TypeError` from
destructuring a non-object `json()` lands in the `catch`. -/
def transcriptFormSubmit (url : String)
    (remote : TaskRequest → Except String JsVal) :
    SubmitOutcome × List TaskRequest :=
  let req1 := downloadReq url
  match remote req1 with
  | .error _ => (.failure, [req1])
  | .ok dres =>
    match getProp dres "result" with
    | .error _ => (.failure, [req1])
    | .ok audioPath =>
      let req2 := transcribeReq audioPath
      match remote req2 with
      | .error _ => (.failure, [req1, req2])
      | .ok tres =>
        match getProp tres "result" with
        | .error _ => (.failure, [req1, req2])
        | .ok transcript => (.success transcript, [req1, req2])

inductive ClickOutcome where
  | prereqMissing
  | done (text : String)
  | pdfDone (filename : String)
  | errored
deriving DecidableEq, Repr

/-- The `build_vector_store` request of the `search_similar` branch. -/
def buildVectorReq (transcript : JsVal) : TaskRequest :=
  ⟨"build_vector_store", .obj [("text", transcript)]⟩

/-- The query request of the `search_similar` branch. -/
def searchSimilarReq : TaskRequest :=
  ⟨"search_similar", .obj [("query", .str "kritik bilgi, tanım ve özet")]⟩

/-- The `export_pdf` request: `window.currentTranscript || ""` and the
current summary-output text. -/
def exportPdfReq (transcript : JsVal) (summaryText : String) : TaskRequest :=
  ⟨"export_pdf", .obj [("sections",
    .obj [("Transkript", jsOr transcript (.str "")), ("Özet", .str summaryText)])]⟩

/-- The generic single-task request `{ text: currentTranscript }`. -/
def plainTaskReq (taskName : String) (transcript : JsVal) : TaskRequest :=
  ⟨taskName, .obj [("text", transcript)]⟩

/-- Rendering of the `search_similar` result:
`similarText.join ? similarText.join("\n\n") : similarText`.  Reading
`.join` on `null`/`undefined` throws a `TypeError` into the `catch`;
an array has the `join` method (truthy), so it is joined with blank
lines; a JSON object whose `join` field is truthy is called as a
function, which throws since JSON data holds no functions; every other
value has a falsy/absent `join` and is stringified by `textContent`. -/
def renderSimilarResult : JsVal → Except String String
  | .null => .error "Cannot read properties of null: join"
  | .undefined => .error "Cannot read properties of undefined: join"
  | .arr xs => .ok (jsJoinWith "\n\n" xs)
  | .obj fields =>
    match fields.lookup "join" with
    | some j =>
      if truthy j then .error "similarText.join is not a function"
      else .ok (jsToString (.obj fields))
    | none => .ok (jsToString (.obj fields))
  | v => .ok (jsToString v)

/-- The action-button click handler (script.js, lines 53-124) for the
button mapped to `taskName`.  The guard
`!window.currentTranscript && taskName !== "export_pdf"` is the
prerequisite gate: with no truthy artifact every task except
`export_pdf` stops with the "Lütfen önce transkript alın." status — the
spec taxonomy name for this branch is `PrerequisiteMissingError` — and
no request is issued. -/
def actionClick (taskName : String) (currentTranscript : JsVal)
    (summaryText : String) (remote : TaskRequest → Except String JsVal) :
    ClickOutcome × List TaskRequest :=
  if truthy currentTranscript = false ∧ taskName ≠ "export_pdf" then
    (.prereqMissing, [])
  else if taskName = "export_pdf" then
    let req := exportPdfReq currentTranscript summaryText
    match remote req with
    | .error _ => (.errored, [req])
    | .ok pres =>
      match getProp pres "result" with
      | .error _ => (.errored, [req])
      | .ok pdfPath =>
        match pdfPath with
        | .str p => (.pdfDone ((p.splitOn "/").getLastD p), [req])
        | _ => (.errored, [req])
  else if taskName = "search_similar" then
    let req1 := buildVectorReq currentTranscript
    match remote req1 with
    | .error _ => (.errored, [req1])
    | .ok _ =>
      match remote searchSimilarReq with
      | .error _ => (.errored, [req1, searchSimilarReq])
      | .ok sres =>
        match getProp sres "result" with
        | .error _ => (.errored, [req1, searchSimilarReq])
        | .ok similarText =>
          match renderSimilarResult similarText with
          | .error _ => (.errored, [req1, searchSimilarReq])
          | .ok rendered => (.done rendered, [req1, searchSimilarReq])
  else
    let req := plainTaskReq taskName currentTranscript
    match remote req with
    | .error _ => (.errored, [req])
    | .ok res =>
      match getProp res "result" with
      | .error _ => (.errored, [req])
      | .ok r => (.done (jsToString r), [req])

/-!
Operation dispatch: `executeOperation` request construction
(src/unnamed/part_000, lines 402-478).  Only the `generate-questions`
branch (lines 420-429) is needed by the claims: the request read from
the form fields is `{ subject, topic, difficulty, count:
parseInt(question-count), exam_type, question_type: 'MULTIPLE_CHOICE' }`
— `exam_type` and `question_type` are the literal payload keys; the
spec names the same fields `examType` and `questionType`. -/

/-- The raw form-field values of the generate-questions form. -/
structure GenerateQuestionsForm where
  subject : String
  topic : String
  difficulty : String
  countValue : String
  examType : String

/-- The payload built before the `/manual/generate-questions` call.
`count` is `none` exactly when `parseInt` yields `NaN`. -/
structure GenerateQuestionsRequest where
  subject : String
  topic : String
  difficulty : String
  count : Option Int
  exam_type : String
  question_type : String
deriving DecidableEq, Repr

def buildGenerateQuestionsRequest (f : GenerateQuestionsForm) : GenerateQuestionsRequest :=
  { subject := f.subject
    topic := f.topic
    difficulty := f.difficulty
    count := parseIntJS f.countValue
    exam_type := f.examType
    question_type := "MULTIPLE_CHOICE" }

/-!
Student profile persistence (src/unnamed/part_000, lines 199-223).

`updateStudentProfile` merges the truthy form values into
`this.studentProfile`, then writes `JSON.stringify(profile)` to
`localStorage`; `loadStudentProfile` reads it back through
`JSON.parse`.  The store is modelled at the JSON-value level:
`profileToJson` is the serialised shape and `profileFromJson` parses
exactly that shape (the deserialiser of the format the writer emits,
with field order as serialised).  The daily-hours control is a numeric
form field, so `parseInt` of its non-empty value is modelled as the
integer it denotes (`dailyHours = none` is the empty, falsy field that
skips the assignment).
-/

structure StudentProfile where
  student_id : Option String
  target_exam : String
  daily_hours : Int
  weak_subjects : List String
  strong_subjects : List String
deriving DecidableEq, Repr

def profileToJson (p : StudentProfile) : JsVal :=
  .obj [("student_id", match p.student_id with | none => .null | some s => .str s),
        ("target_exam", .str p.target_exam),
        ("daily_hours", .num p.daily_hours),
        ("weak_subjects", .arr (p.weak_subjects.map .str)),
        ("strong_subjects", .arr (p.strong_subjects.map .str))]

def jsStrVal : JsVal → Option String
  | .str s => some s
  | _ => none

def strListAux : List JsVal → Option (List String)
  | [] => some []
  | x :: rest => do
    let s ← jsStrVal x
    let r ← strListAux rest
    some (s :: r)

def strListFromJson : JsVal → Option (List String)
  | .arr xs => strListAux xs
  | _ => none

def profileFromJson : JsVal → Option StudentProfile
  | .obj [("student_id", sid), ("target_exam", .str te), ("daily_hours", .num dh),
          ("weak_subjects", ws), ("strong_subjects", ss)] => do
    let sidv ← match sid with
      | .null => some none
      | .str s => some (some s)
      | _ => none
    let wsv ← strListFromJson ws
    let ssv ← strListFromJson ss
    some ⟨sidv, te, dh, wsv, ssv⟩
  | _ => none

/-- The profile-form values read by `updateStudentProfile`; falsy (empty)
values leave the corresponding profile field untouched. -/
structure ProfileFormState where
  targetExam : String
  dailyHours : Option Int
  weakSubjects : List String

/-- `updateStudentProfile` (lines 207-223): merge the truthy form values,
then persist the full resulting profile.  Returns the new in-memory
profile and the value written to durable storage. -/
def updateStudentProfile (p : StudentProfile) (form : ProfileFormState) :
    StudentProfile × JsVal :=
  let p1 := if form.targetExam ≠ "" then { p with target_exam := form.targetExam } else p
  let p2 := match form.dailyHours with
    | some n => { p1 with daily_hours := n }
    | none => p1
  let p3 := { p2 with weak_subjects := form.weakSubjects }
  (p3, profileToJson p3)

/-- `loadStudentProfile` (lines 199-205): keep the current profile when
nothing is stored, otherwise parse the stored value. -/
def loadStudentProfile (saved : Option JsVal) (current : StudentProfile) : StudentProfile :=
  match saved with
  | none => current
  | some j => (profileFromJson j).getD current

/-!
Response formatters (src/unnamed/part_000, lines 538-647).

Each formatter builds an HTML string from the raw JSON payload; the
template-literal whitespace of the source is normalised, the markup
structure and all data-dependent content are kept.  Property accesses
run in `Except String`, so a formatter that dereferences `null` or
`undefined` — or calls `toFixed` on a non-number — throws exactly where
the JavaScript does.
-/

def qNotFound : String := "<p class=\"text-muted\">Soru bulunamadı.</p>"

/-- One option row of `formatQuestions`: accesses `option.option_letter`
and `option.option_text`, and compares the letter with
`question.correct_answer` (read once per question here; in the source it
is re-read per option from the same non-null question object, which
cannot throw and yields the same value). -/
def formatOption (correct : JsVal) (option : JsVal) : Except String String := do
  let ol ← getProp option "option_letter"
  let ot ← getProp option "option_text"
  pure ("<div class=\"option " ++ (if jsStrictEq ol correct then "correct" else "")
        ++ "\"><strong>" ++ jsToString ol ++ ")</strong> " ++ jsToString ot ++ "</div>")

def formatOptionList (correct : JsVal) : List JsVal → Except String String
  | [] => pure ""
  | o :: rest => do
    let hd ← formatOption correct o
    let tl ← formatOptionList correct rest
    pure (hd ++ tl)

def formatQuestionItem (idx : Nat) (q : JsVal) : Except String String := do
  let qt ← getProp q "question_text"
  let head := "<div class=\"question-item\"><div class=\"question-text\"><strong>Soru "
              ++ toString (idx + 1) ++ ":</strong> " ++ jsToString qt ++ "</div>"
  let opts ← getProp q "options"
  let ca ← getProp q "correct_answer"
  let optsHtml ← (match opts with
    | .arr os => formatOptionList ca os
    | _ => pure "")
  let ex ← getProp q "explanation"
  let exHtml := if truthy ex then
      "<div class=\"explanation\"><strong>Açıklama:</strong> " ++ jsToString ex ++ "</div>"
    else ""
  pure (head ++ optsHtml ++ exHtml ++ "</div>")

def formatQuestionList : Nat → List JsVal → Except String String
  | _, [] => pure ""
  | i, q :: rest => do
    let hd ← formatQuestionItem i q
    let tl ← formatQuestionList (i + 1) rest
    pure (hd ++ tl)

/-- `formatQuestions` (lines 538-576).  The guard
`!data || !Array.isArray(data)` holds exactly for non-arrays (every
array is truthy), so non-arrays render the not-found model and arrays
are iterated. -/
def formatQuestions (data : JsVal) : Except String String :=
  match data with
  | .arr qs => do
    let body ← formatQuestionList 0 qs
    pure ("<h6>Üretilen Sorular</h6>" ++ body)
  | _ => pure qNotFound

def weeksHtml : Nat → List JsVal → String
  | _, [] => ""
  | i, w :: rest =>
    "<div class=\"card mb-2\"><div class=\"card-body\"><h6>Hafta " ++ toString (i + 1)
    ++ "</h6><p>" ++ jsToString w ++ "</p></div></div>" ++ weeksHtml (i + 1) rest

/-- `formatStudyPlan` (lines 578-607): dereferences
`data.overall_strategy` and `data.weekly_plans` unconditionally
(`data.weekly_plans && Array.isArray(...)` holds exactly for arrays). -/
def formatStudyPlan (data : JsVal) : Except String String := do
  let strat ← getProp data "overall_strategy"
  let stratHtml := if truthy strat then
      "<div class=\"card mb-3\"><div class=\"card-body\"><h6>Genel Strateji</h6><p>"
      ++ jsToString strat ++ "</p></div></div>"
    else ""
  let wp ← getProp data "weekly_plans"
  let wpHtml := match wp with
    | .arr weeks => "<h6>Haftalık Plan</h6>" ++ weeksHtml 0 weeks
    | _ => ""
  pure ("<h6>Çalışma Planı</h6>" ++ stratHtml ++ wpHtml)

/-- One result card of `formatSearchResults`:
`result.relevance_score?.toFixed(2)` short-circuits to `undefined` on a
nullish score, yields the two-decimal rendering of a number, and throws
`TypeError` on any other value; `|| 'N/A'` then covers the nullish
case. -/
def searchItemHtml (r : JsVal) : Except String String := do
  let t ← getProp r "title"
  let c ← getProp r "content"
  let sc ← getProp r "relevance_score"
  let scoreStr ← (match sc with
    | .null => pure JsVal.undefined
    | .undefined => pure JsVal.undefined
    | .num n => pure (JsVal.str (toString n ++ ".00"))
    | _ => Except.error "result.relevance_score.toFixed is not a function")
  pure ("<div class=\"card mb-2\"><div class=\"card-body\"><h6>"
        ++ jsToString (jsOr t (.str "Başlıksız")) ++ "</h6><p>" ++ jsToString c
        ++ "</p><small class=\"text-muted\">Skor: " ++ jsToString (jsOr scoreStr (.str "N/A"))
        ++ "</small></div></div>")

def searchItemsHtml : List JsVal → Except String String
  | [] => pure ""
  | r :: rest => do
    let hd ← searchItemHtml r
    let tl ← searchItemsHtml rest
    pure (hd ++ tl)

/-- `formatSearchResults` (lines 609-631): dereferences `data.results`
unconditionally; a non-array `results` renders the not-found model. -/
def formatSearchResults (data : JsVal) : Except String String := do
  let rs ← getProp data "results"
  match rs with
  | .arr items => do
    let body ← searchItemsHtml items
    pure ("<h6>Arama Sonuçları</h6>" ++ body)
  | _ => pure "<h6>Arama Sonuçları</h6><p class=\"text-muted\">Sonuç bulunamadı.</p>"

/-- `formatAnalysis` (lines 633-647): dereferences `data.analysis`
unconditionally and pipes a truthy value through `formatMessage`. -/
def formatAnalysis (data : JsVal) : Except String String := do
  let a ← getProp data "analysis"
  pure ("<h6>İçerik Analizi</h6>"
        ++ (if truthy a then
              "<div class=\"card\"><div class=\"card-body\"><p>"
              ++ formatMessage (jsToString a) ++ "</p></div></div>"
            else ""))

/-- Not `null` and not `undefined`: property access on such a value
cannot throw. -/
def notNullish : JsVal → Bool
  | .null => false
  | .undefined => false
  | _ => true

/-- A questions-array element whose own property accesses cannot throw:
not nullish, and its `options` array (when it is one) free of nullish
elements. -/
def questionEntryOk (q : JsVal) : Bool :=
  notNullish q &&
    (match getPropD q "options" with
     | .arr os => os.all notNullish
     | _ => true)

/-- A value on which `?.toFixed(2)` cannot throw. -/
def scoreOk : JsVal → Bool
  | .null => true
  | .undefined => true
  | .num _ => true
  | _ => false

/-- A search-result element whose rendering cannot throw: not nullish,
with a nullish-or-numeric `relevance_score`. -/
def searchEntryOk (r : JsVal) : Bool :=
  notNullish r && scoreOk (getPropD r "relevance_score")

/-- A search payload whose rendering cannot throw. -/
def searchPayloadOk (data : JsVal) : Bool :=
  notNullish data &&
    (match getPropD data "results" with
     | .arr items => items.all searchEntryOk
     | _ => true)

/-! Shared lemmas. -/

theorem ok_bind {α β : Type} (a : α) (f : α → Except String β) :
    (Except.ok a >>= f) = f a := rfl

theorem error_bind {α β : Type} (m : String) (f : α → Except String β) :
    ((Except.error m : Except String α) >>= f) = Except.error m := rfl

theorem getProp_eq_ok (v : JsVal) (k : String) (h1 : v ≠ .null) (h2 : v ≠ .undefined) :
    getProp v k = .ok (getPropD v k) := by
  cases v <;> simp_all [getProp, getPropD]

theorem countPending_append (a b : List ConversationEntry) :
    countPending (a ++ b) = countPending a + countPending b := by
  simp [countPending, List.countP_append]

theorem countPending_cons (e : ConversationEntry) (h : List ConversationEntry) :
    countPending (e :: h) = countPending h + (if e.isPending then 1 else 0) := by
  simp [countPending, List.countP_cons]

theorem countPending_eq_zero {h : List ConversationEntry} :
    countPending h = 0 ↔ ∀ e ∈ h, e.isPending = false := by
  simp [countPending, List.countP_eq_zero]

theorem removeLoading_clean (h : List ConversationEntry) (hc : countPending h = 0) :
    removeLoadingFromChat h = h := by
  induction h with
  | nil => rfl
  | cons e rest ih =>
    rw [countPending_cons] at hc
    have he : e.isPending = false := by
      by_contra hne
      rw [Bool.not_eq_false] at hne
      rw [hne] at hc
      simp at hc
    rw [he] at hc
    simp at hc
    simp [removeLoadingFromChat, he, ih hc]

theorem removeLoading_append_clean (h t : List ConversationEntry)
    (hc : countPending h = 0) :
    removeLoadingFromChat (h ++ t) = h ++ removeLoadingFromChat t := by
  induction h with
  | nil => rfl
  | cons e rest ih =>
    rw [countPending_cons] at hc
    have he : e.isPending = false := by
      by_contra hne
      rw [Bool.not_eq_false] at hne
      rw [hne] at hc
      simp at hc
    rw [he] at hc
    simp at hc
    simp [removeLoadingFromChat, he, ih hc]

theorem strList_roundtrip (l : List String) :
    strListFromJson (.arr (l.map .str)) = some l := by
  have aux : ∀ m : List String, strListAux (m.map .str) = some m := by
    intro m
    induction m with
    | nil => rfl
    | cons s rest ih => simp [strListAux, jsStrVal, ih]
  simp [strListFromJson, aux]

/-- Claim C4: for `generate-questions` with subject "matematik", topic
"türev", difficulty "medium", count 3, exam type "YKS", the payload
built before the remote call is exactly those fields plus the fixed
constant `question_type = "MULTIPLE_CHOICE"` (the payload keys
`exam_type`/`question_type` are what the spec calls
`examType`/`questionType`), and the constant is fixed for every form
input. -/
theorem generate_questions_request_shape :
    buildGenerateQuestionsRequest ⟨"matematik", "türev", "medium", "3", "YKS"⟩
      = { subject := "matematik", topic := "türev", difficulty := "medium",
          count := some 3, exam_type := "YKS", question_type := "MULTIPLE_CHOICE" }
    ∧ ∀ f : GenerateQuestionsForm,
        (buildGenerateQuestionsRequest f).question_type = "MULTIPLE_CHOICE" :=
  ⟨by decide, fun _ => rfl⟩

/-- Claim C6: `formatMessage` escapes the raw markup characters first
and only then re-introduces the recognised patterns; on the text
`"<b>x</b> *y*"` the `<b>` tag comes out as escaped literal text, no
raw `<b>` substring survives, and `*y*` becomes an emphasis element. -/
theorem formatMessage_escape_before_format :
    (∀ m : String,
      formatMessage m
        = wrapUl (replaceLists (replaceBr (replaceItalic (replaceBold (escapeHtml m))))))
    ∧ formatMessage "<b>x</b> *y*" = "&lt;b&gt;x&lt;/b&gt; <em>y</em>"
    ∧ hasSub (formatMessage "<b>x</b> *y*") "<b>" = false
    ∧ hasSub (formatMessage "<b>x</b> *y*") "<em>y</em>" = true :=
  ⟨fun _ => rfl, by decide, by decide, by decide⟩

/-- Claim C7: a profile mutation through `updateStudentProfile`
immediately persists the full resulting profile, and reloading the
persisted value through `loadStudentProfile` reconstructs a profile
structurally equal to it, for every starting profile and every form
state (round-trip law `profileFromJson ∘ profileToJson = some`). -/
theorem profile_update_roundtrip :
    (∀ p : StudentProfile, profileFromJson (profileToJson p) = some p)
    ∧ ∀ (p q : StudentProfile) (form : ProfileFormState),
        (updateStudentProfile p form).2 = profileToJson (updateStudentProfile p form).1
        ∧ loadStudentProfile (some (updateStudentProfile p form).2) q
            = (updateStudentProfile p form).1 := by
  have rt : ∀ p : StudentProfile, profileFromJson (profileToJson p) = some p := by
    intro p
    cases p with
    | mk sid te dh ws ss =>
      cases sid <;> simp [profileToJson, profileFromJson, strList_roundtrip]
  refine ⟨rt, fun p q form => ⟨rfl, ?_⟩⟩
  show (profileFromJson (updateStudentProfile p form).2).getD q = (updateStudentProfile p form).1
  rw [show (updateStudentProfile p form).2
        = profileToJson (updateStudentProfile p form).1 from rfl, rt]
  rfl

/-- Claim C9: on input that is empty after trimming, `sendAIMessage`
takes the validation-failure branch, appends no conversation entry and
issues no remote call. -/
theorem sendMessage_empty_input_validation :
    ∀ (profile : JsVal) (input : String) (h : List ConversationEntry)
      (remote : JsVal → Except String JsVal),
      jsTrim input = "" →
      sendAIMessage profile input h remote = (.validationError, h, []) := by
  intro profile input h remote ht
  simp [sendAIMessage, ht]

/-- Witness for C9 at the concrete whitespace input. -/
theorem sendMessage_empty_input_validation_witness :
    jsTrim "   " = ""
    ∧ sendAIMessage .null "   " [] (fun _ => .error "down") = (.validationError, [], []) :=
  ⟨by decide,
   sendMessage_empty_input_validation .null "   " [] (fun _ => .error "down") (by decide)⟩

/-- Claim C10: `removeLoadingFromChat` removes at most one pending
placeholder per call — with no pending entry the history is unchanged
(and nothing is thrown: the function is total), and with pending
entries present exactly the first one in order is removed. -/
theorem removePending_removes_first :
    ∀ h : List ConversationEntry,
      (countPending h = 0 → removeLoadingFromChat h = h)
      ∧ ∀ (pre : List ConversationEntry) (e : ConversationEntry)
          (post : List ConversationEntry),
          h = pre ++ e :: post → countPending pre = 0 → e.isPending = true →
          removeLoadingFromChat h = pre ++ post := by
  intro h
  refine ⟨removeLoading_clean h, ?_⟩
  intro pre e post heq hc hp
  subst heq
  rw [removeLoading_append_clean pre (e :: post) hc]
  simp [removeLoadingFromChat, hp]

/-- Witness for C10: a history with two placeholders loses exactly the
first one. -/
theorem removePending_removes_first_witness :
    countPending [(⟨Speaker.user, "q", false⟩ : ConversationEntry)] = 0
    ∧ removeLoadingFromChat
        [⟨Speaker.user, "q", false⟩, loadingEntry, loadingEntry]
        = [⟨Speaker.user, "q", false⟩, loadingEntry] :=
  ⟨by decide,
   (removePending_removes_first _).2 [⟨Speaker.user, "q", false⟩] loadingEntry
     [loadingEntry] rfl (by decide) (by decide)⟩

theorem transcriptFormSubmit_trace (url : String)
    (remote : TaskRequest → Except String JsVal) :
    (transcriptFormSubmit url remote).2 =
      match remote (downloadReq url) with
      | .error _ => [downloadReq url]
      | .ok d =>
        match getProp d "result" with
        | .error _ => [downloadReq url]
        | .ok ap => [downloadReq url, transcribeReq ap] := by
  cases hd : remote (downloadReq url) with
  | error m => simp [transcriptFormSubmit, hd]
  | ok d =>
    cases hg : getProp d "result" with
    | error m => simp [transcriptFormSubmit, hd, hg]
    | ok ap =>
      cases h2 : remote (transcribeReq ap) with
      | error m => simp [transcriptFormSubmit, hd, hg, h2]
      | ok t =>
        cases h3 : getProp t "result" with
        | error m => simp [transcriptFormSubmit, hd, hg, h2, h3]
        | ok tr => simp [transcriptFormSubmit, hd, hg, h2, h3]

/-- Claim C2: the acquisition chain always issues the retrieval
(`download`) request first; if retrieval fails the transcription request
is never issued; and when the retrieval response resolves with a
`result` value, the only other request is the transcription one, whose
payload carries exactly that resolved value. -/
theorem acquisition_chain_order :
    ∀ (url : String) (remote : TaskRequest → Except String JsVal),
      (transcriptFormSubmit url remote).2.head? = some (downloadReq url)
      ∧ (∀ m, remote (downloadReq url) = .error m →
          (transcriptFormSubmit url remote).2 = [downloadReq url])
      ∧ (∀ d ap, remote (downloadReq url) = .ok d → getProp d "result" = .ok ap →
          (transcriptFormSubmit url remote).2 = [downloadReq url, transcribeReq ap])
      ∧ (∀ d m, remote (downloadReq url) = .ok d → getProp d "result" = .error m →
          (transcriptFormSubmit url remote).2 = [downloadReq url]) := by
  intro url remote
  have ht := transcriptFormSubmit_trace url remote
  refine ⟨?_, ?_, ?_, ?_⟩
  · rw [ht]
    cases remote (downloadReq url) with
    | error m => rfl
    | ok d =>
      cases hg : getProp d "result" with
      | error m => simp [hg]
      | ok ap => simp [hg]
  · intro m hm
    rw [ht, hm]
  · intro d ap hd hg
    rw [ht, hd]
    simp [hg]
  · intro d m hd hg
    rw [ht, hd]
    simp [hg]

/-- Witness for C2: with a concrete two-step oracle the chain issues
exactly the download request and then the transcription request built
from the download result. -/
theorem acquisition_chain_order_witness :
    (transcriptFormSubmit "U"
        (fun r => if r.task = "download"
                  then .ok (.obj [("result", .str "a.mp3")])
                  else .ok (.obj [("result", .str "text")]))).2
      = [downloadReq "U", transcribeReq (.str "a.mp3")] :=
  (acquisition_chain_order "U"
      (fun r => if r.task = "download"
                then .ok (.obj [("result", .str "a.mp3")])
                else .ok (.obj [("result", .str "text")]))).2.2.1
    (.obj [("result", .str "a.mp3")]) (.str "a.mp3") rfl rfl

/-- Claim C3: with no truthy current artifact, every task except
`export_pdf` stops at the prerequisite gate (the
`PrerequisiteMissingError` branch) and issues zero remote requests,
while `export_pdf` alone proceeds and issues its export request. -/
theorem prerequisite_gate :
    ∀ (taskName : String) (transcript : JsVal) (summary : String)
      (remote : TaskRequest → Except String JsVal),
      (truthy transcript = false → taskName ≠ "export_pdf" →
        actionClick taskName transcript summary remote = (.prereqMissing, []))
      ∧ (truthy transcript = false →
          ∃ out, actionClick "export_pdf" transcript summary remote
              = (out, [exportPdfReq transcript summary]) ∧ out ≠ .prereqMissing) := by
  intro taskName transcript summary remote
  constructor
  · intro ht hn
    simp [actionClick, ht, hn]
  · intro ht
    cases hr : remote (exportPdfReq transcript summary) with
    | error m => exact ⟨.errored, by simp [actionClick, hr], by simp⟩
    | ok pres =>
      cases hg : getProp pres "result" with
      | error m => exact ⟨.errored, by simp [actionClick, hr, hg], by simp⟩
      | ok pdfPath =>
        cases pdfPath with
        | str p =>
          exact ⟨.pdfDone ((p.splitOn "/").getLastD p),
                 by simp [actionClick, hr, hg], by simp⟩
        | null => exact ⟨.errored, by simp [actionClick, hr, hg], by simp⟩
        | undefined => exact ⟨.errored, by simp [actionClick, hr, hg], by simp⟩
        | bool b => exact ⟨.errored, by simp [actionClick, hr, hg], by simp⟩
        | num n => exact ⟨.errored, by simp [actionClick, hr, hg], by simp⟩
        | arr xs => exact ⟨.errored, by simp [actionClick, hr, hg], by simp⟩
        | obj fs => exact ⟨.errored, by simp [actionClick, hr, hg], by simp⟩

/-- Witness for C3: `summarize` with no artifact fails at the gate with
an empty trace. -/
theorem prerequisite_gate_witness :
    truthy JsVal.undefined = false
    ∧ ("summarize" : String) ≠ "export_pdf"
    ∧ actionClick "summarize" .undefined "" (fun _ => .ok .null) = (.prereqMissing, []) :=
  ⟨rfl, by decide,
   (prerequisite_gate "summarize" .undefined "" (fun _ => .ok .null)).1 rfl (by decide)⟩

theorem actionClick_search_err1 (transcript : JsVal) (summary : String)
    (remote : TaskRequest → Except String JsVal) (m : String)
    (ht : truthy transcript = true)
    (h1 : remote (buildVectorReq transcript) = .error m) :
    actionClick "search_similar" transcript summary remote
      = (.errored, [buildVectorReq transcript]) := by
  simp [actionClick, ht, h1]

theorem actionClick_search_err2 (transcript : JsVal) (summary : String)
    (remote : TaskRequest → Except String JsVal) (v : JsVal) (m : String)
    (ht : truthy transcript = true)
    (h1 : remote (buildVectorReq transcript) = .ok v)
    (h2 : remote searchSimilarReq = .error m) :
    actionClick "search_similar" transcript summary remote
      = (.errored, [buildVectorReq transcript, searchSimilarReq]) := by
  simp [actionClick, ht, h1, h2]

theorem actionClick_search_err3 (transcript : JsVal) (summary : String)
    (remote : TaskRequest → Except String JsVal) (v sres : JsVal) (m : String)
    (ht : truthy transcript = true)
    (h1 : remote (buildVectorReq transcript) = .ok v)
    (h2 : remote searchSimilarReq = .ok sres)
    (h3 : getProp sres "result" = .error m) :
    actionClick "search_similar" transcript summary remote
      = (.errored, [buildVectorReq transcript, searchSimilarReq]) := by
  simp [actionClick, ht, h1, h2, h3]

theorem actionClick_search_err4 (transcript : JsVal) (summary : String)
    (remote : TaskRequest → Except String JsVal) (v sres r : JsVal) (m : String)
    (ht : truthy transcript = true)
    (h1 : remote (buildVectorReq transcript) = .ok v)
    (h2 : remote searchSimilarReq = .ok sres)
    (h3 : getProp sres "result" = .ok r)
    (h4 : renderSimilarResult r = .error m) :
    actionClick "search_similar" transcript summary remote
      = (.errored, [buildVectorReq transcript, searchSimilarReq]) := by
  simp [actionClick, ht, h1, h2, h3, h4]

theorem actionClick_search_ok (transcript : JsVal) (summary : String)
    (remote : TaskRequest → Except String JsVal) (v sres r : JsVal) (rendered : String)
    (ht : truthy transcript = true)
    (h1 : remote (buildVectorReq transcript) = .ok v)
    (h2 : remote searchSimilarReq = .ok sres)
    (h3 : getProp sres "result" = .ok r)
    (h4 : renderSimilarResult r = .ok rendered) :
    actionClick "search_similar" transcript summary remote
      = (.done rendered, [buildVectorReq transcript, searchSimilarReq]) := by
  simp [actionClick, ht, h1, h2, h3, h4]

/-- Claim C5: the `search_similar` step issues the indexing sub-call
(`build_vector_store`) first; if that sub-call fails the query sub-call
is never issued; the query sub-call appears only after a completed
indexing sub-call; a rendered result exists only when both sub-calls
completed, in that order, with the rendered text produced without
throwing from the query result; and when reading `.join` on the query
result throws (a nullish result value), nothing is rendered and the
`catch` reports an error instead. -/
theorem search_similar_subcall_order :
    ∀ (transcript : JsVal) (summary : String)
      (remote : TaskRequest → Except String JsVal),
      truthy transcript = true →
      ((actionClick "search_similar" transcript summary remote).2.head?
          = some (buildVectorReq transcript))
      ∧ (∀ m, remote (buildVectorReq transcript) = .error m →
          actionClick "search_similar" transcript summary remote
            = (.errored, [buildVectorReq transcript]))
      ∧ (searchSimilarReq ∈ (actionClick "search_similar" transcript summary remote).2 →
          (actionClick "search_similar" transcript summary remote).2
            = [buildVectorReq transcript, searchSimilarReq]
          ∧ succeeded (remote (buildVectorReq transcript)) = true)
      ∧ (∀ s, (actionClick "search_similar" transcript summary remote).1 = .done s →
          (actionClick "search_similar" transcript summary remote).2
            = [buildVectorReq transcript, searchSimilarReq]
          ∧ succeeded (remote (buildVectorReq transcript)) = true
          ∧ ∃ v r, remote searchSimilarReq = .ok v ∧ getProp v "result" = .ok r
              ∧ renderSimilarResult r = .ok s)
      ∧ (∀ v sres r m, remote (buildVectorReq transcript) = .ok v →
          remote searchSimilarReq = .ok sres → getProp sres "result" = .ok r →
          renderSimilarResult r = .error m →
          actionClick "search_similar" transcript summary remote
            = (.errored, [buildVectorReq transcript, searchSimilarReq])) := by
  intro transcript summary remote ht
  cases h1 : remote (buildVectorReq transcript) with
  | error m =>
    have hact := actionClick_search_err1 transcript summary remote m ht h1
    refine ⟨by rw [hact]; rfl, fun m' _ => by rw [hact], ?_, ?_, ?_⟩
    · intro hmem
      rw [hact] at hmem
      simp [searchSimilarReq, buildVectorReq] at hmem
    · intro s hs
      rw [hact] at hs
      simp at hs
    · intro v sres r m' hv
      simp at hv
  | ok v1 =>
    cases h2 : remote searchSimilarReq with
    | error m =>
      have hact := actionClick_search_err2 transcript summary remote v1 m ht h1 h2
      refine ⟨by rw [hact]; rfl, ?_, ?_, ?_, ?_⟩
      · intro m' hm'
        simp at hm'
      · intro _
        exact ⟨by rw [hact], rfl⟩
      · intro s hs
        rw [hact] at hs
        simp at hs
      · intro v sres r m' _ hsres
        simp at hsres
    | ok sres =>
      cases h3 : getProp sres "result" with
      | error m =>
        have hact := actionClick_search_err3 transcript summary remote v1 sres m ht h1 h2 h3
        refine ⟨by rw [hact]; rfl, ?_, ?_, ?_, ?_⟩
        · intro m' hm'
          simp at hm'
        · intro _
          exact ⟨by rw [hact], rfl⟩
        · intro s hs
          rw [hact] at hs
          simp at hs
        · intro v sres' r m' _ hs' hr'
          cases hs'
          rw [h3] at hr'
          cases hr'
      | ok r =>
        cases h4 : renderSimilarResult r with
        | error m =>
          have hact := actionClick_search_err4 transcript summary remote v1 sres r m ht h1 h2 h3 h4
          refine ⟨by rw [hact]; rfl, ?_, ?_, ?_, ?_⟩
          · intro m' hm'
            simp at hm'
          · intro _
            exact ⟨by rw [hact], rfl⟩
          · intro s hs
            rw [hact] at hs
            simp at hs
          · intro v sres' r' m' _ hs' hr' hren'
            exact hact
        | ok rendered =>
          have hact := actionClick_search_ok transcript summary remote v1 sres r rendered ht h1 h2 h3 h4
          refine ⟨by rw [hact]; rfl, ?_, ?_, ?_, ?_⟩
          · intro m' hm'
            simp at hm'
          · intro _
            exact ⟨by rw [hact], rfl⟩
          · intro s hs
            rw [hact] at hs
            simp at hs
            exact ⟨by rw [hact], rfl, sres, r, rfl, h3, by rw [h4, hs]⟩
          · intro v sres' r' m' _ hs' hr' hren'
            cases hs'
            rw [h3] at hr'
            cases hr'
            rw [h4] at hren'
            cases hren'

/-- Witness for C5 at concrete transcripts and oracles: both sub-calls
appear, indexing first; and a query resolving with `{result: null}`
renders nothing — the handler ends in the error state. -/
theorem search_similar_subcall_order_witness :
    truthy (JsVal.str "t") = true
    ∧ (actionClick "search_similar" (.str "t") ""
        (fun r => if r.task = "build_vector_store"
                  then .ok .null
                  else .ok (.obj [("result", .arr [.str "k"])]))).2.head?
        = some (buildVectorReq (.str "t"))
    ∧ actionClick "search_similar" (.str "t") ""
        (fun r => if r.task = "build_vector_store"
                  then .ok .null
                  else .ok (.obj [("result", .null)]))
        = (.errored, [buildVectorReq (.str "t"), searchSimilarReq]) :=
  ⟨rfl,
   (search_similar_subcall_order (.str "t") ""
      (fun r => if r.task = "build_vector_store"
                then .ok .null
                else .ok (.obj [("result", .arr [.str "k"])])) rfl).1,
   (search_similar_subcall_order (.str "t") ""
      (fun r => if r.task = "build_vector_store"
                then .ok .null
                else .ok (.obj [("result", .null)])) rfl).2.2.2.2
     .null (.obj [("result", .null)]) .null "Cannot read properties of null: join"
     rfl rfl rfl rfl⟩

theorem sendTryBody_shape (data : JsVal) (h : List ConversationEntry) :
    ∃ ext thrown, sendTryBody data h = (h ++ ext, thrown)
      ∧ (∀ e ∈ ext, e.speaker = .assistant ∧ e.isPending = false)
      ∧ (thrown = none → ext ≠ []) := by
  cases hge : getProp data "error" with
  | error m =>
    refine ⟨[], some m, by simp [sendTryBody, hge], by simp, by simp⟩
  | ok ev =>
    cases htv : truthy ev with
    | true =>
      refine ⟨[⟨.assistant, "Hata: " ++ jsToString ev, false⟩], none,
        by simp [sendTryBody, hge, htv, addMessageToChat], ?_, by simp⟩
      intro e he
      simp at he
      subst he
      exact ⟨rfl, rfl⟩
    | false =>
      cases hr : getProp data "response" with
      | error m =>
        refine ⟨[], some m, by simp [sendTryBody, hge, htv, hr], by simp, by simp⟩
      | ok resp =>
        cases hx : getProp data "text" with
        | error m =>
          refine ⟨[], some m, by simp [sendTryBody, hge, htv, hr, hx], by simp, by simp⟩
        | ok txt =>
          have hmem : ∀ e ∈ [(⟨.assistant,
              jsToString (jsOr (jsOr resp txt) (.str "Yanıt alınamadı")), false⟩ :
                ConversationEntry)], e.speaker = Speaker.assistant ∧ e.isPending = false := by
            intro e he
            simp at he
            subst he
            exact ⟨rfl, rfl⟩
          cases hq : getProp data "questions" with
          | error m =>
            refine ⟨[⟨.assistant, jsToString (jsOr (jsOr resp txt) (.str "Yanıt alınamadı")),
                false⟩], some m,
              by simp [sendTryBody, hge, htv, hr, hx, hq, addMessageToChat], hmem, by simp⟩
          | ok q =>
            cases htq : truthy q with
            | true =>
              refine ⟨[⟨.assistant, jsToString (jsOr (jsOr resp txt) (.str "Yanıt alınamadı")),
                  false⟩], some "this.displayQuestions is not a function",
                by simp [sendTryBody, hge, htv, hr, hx, hq, htq, addMessageToChat], hmem, by simp⟩
            | false =>
              cases hsp : getProp data "study_plan" with
              | error m =>
                refine ⟨[⟨.assistant, jsToString (jsOr (jsOr resp txt) (.str "Yanıt alınamadı")),
                    false⟩], some m,
                  by simp [sendTryBody, hge, htv, hr, hx, hq, htq, hsp, addMessageToChat],
                  hmem, by simp⟩
              | ok sp =>
                cases htsp : truthy sp with
                | true =>
                  refine ⟨[⟨.assistant, jsToString (jsOr (jsOr resp txt) (.str "Yanıt alınamadı")),
                      false⟩], some "this.displayStudyPlan is not a function",
                    by simp [sendTryBody, hge, htv, hr, hx, hq, htq, hsp, htsp, addMessageToChat],
                    hmem, by simp⟩
                | false =>
                  refine ⟨[⟨.assistant, jsToString (jsOr (jsOr resp txt) (.str "Yanıt alınamadı")),
                      false⟩], none,
                    by simp [sendTryBody, hge, htv, hr, hx, hq, htq, hsp, htsp, addMessageToChat],
                    hmem, by simp⟩

theorem removeLoading_phase1 (input : String) (h : List ConversationEntry)
    (hcp : countPending h = 0) :
    removeLoadingFromChat (sendAIMessagePhase1 input h)
      = h ++ [⟨.user, input, false⟩] := by
  have : sendAIMessagePhase1 input h
      = h ++ [⟨.user, input, false⟩, loadingEntry] := by
    simp [sendAIMessagePhase1, addMessageToChat, addLoadingToChat]
  rw [this, removeLoading_append_clean h _ hcp]
  rfl

/-- Claim C1: on a non-empty trimmed message, and with no pending entry
already in history, the synchronous part of `sendAIMessage` leaves the
history ending with exactly one pending entry placed immediately after
the newly appended user entry; once the remote request resolves or
rejects — every path, including payloads whose handling itself throws —
the history holds zero pending entries and position of the former
placeholder (immediately after the user entry) holds a terminal
assistant entry; and the full `sendAIMessage` run is exactly the
composition of the two phases around the single remote call. -/
theorem sendMessage_pending_invariant :
    ∀ (input : String) (h : List ConversationEntry),
      jsTrim input ≠ "" → countPending h = 0 →
      (sendAIMessagePhase1 (jsTrim input) h
          = h ++ [⟨.user, jsTrim input, false⟩, loadingEntry]
        ∧ loadingEntry.isPending = true
        ∧ countPending (sendAIMessagePhase1 (jsTrim input) h) = 1)
      ∧ (∀ fr : Except String JsVal,
          ∃ (a : ConversationEntry) (rest : List ConversationEntry),
            sendAIMessageResolve fr (sendAIMessagePhase1 (jsTrim input) h)
              = h ++ ⟨.user, jsTrim input, false⟩ :: a :: rest
            ∧ a.speaker = .assistant ∧ a.isPending = false
            ∧ countPending
                (sendAIMessageResolve fr (sendAIMessagePhase1 (jsTrim input) h)) = 0)
      ∧ (∀ (profile : JsVal) (remote : JsVal → Except String JsVal),
          sendAIMessage profile input h remote
            = (.completed,
               sendAIMessageResolve (remote (chatRequestBody profile (jsTrim input)))
                 (sendAIMessagePhase1 (jsTrim input) h),
               [chatRequestBody profile (jsTrim input)])) := by
  intro input h hne hcp
  have hp1 : sendAIMessagePhase1 (jsTrim input) h
      = h ++ [⟨.user, jsTrim input, false⟩, loadingEntry] := by
    simp [sendAIMessagePhase1, addMessageToChat, addLoadingToChat]
  have hrm := removeLoading_phase1 (jsTrim input) h hcp
  have hclean : countPending (h ++ [⟨.user, jsTrim input, false⟩]) = 0 := by
    rw [countPending_append, hcp]
    rfl
  refine ⟨⟨hp1, rfl, ?_⟩, ?_, ?_⟩
  · rw [hp1, countPending_append, hcp]
    rfl
  · intro fr
    cases fr with
    | error m =>
      refine ⟨⟨.assistant, "Bağlantı hatası: " ++ m, false⟩, [], ?_, rfl, rfl, ?_⟩
      · simp [sendAIMessageResolve, hrm, addMessageToChat]
      · simp [sendAIMessageResolve, hrm, addMessageToChat, countPending_append, hcp]
        rfl
    | ok data =>
      obtain ⟨ext, thrown, hst, hext, hnone⟩ :=
        sendTryBody_shape data (h ++ [⟨.user, jsTrim input, false⟩])
      have hextzero : countPending ext = 0 :=
        countPending_eq_zero.mpr (fun e he => (hext e he).2)
      have hresclean : countPending ((h ++ [⟨.user, jsTrim input, false⟩]) ++ ext) = 0 := by
        rw [countPending_append, hclean, hextzero]
      cases thrown with
      | none =>
        cases hext1 : ext with
        | nil => exact absurd hext1 (hnone rfl)
        | cons a rest =>
          refine ⟨a, rest, ?_, (hext a (by rw [hext1]; exact List.mem_cons_self a rest)).1,
            (hext a (by rw [hext1]; exact List.mem_cons_self a rest)).2, ?_⟩
          · have : sendAIMessageResolve (.ok data) (sendAIMessagePhase1 (jsTrim input) h)
                = (h ++ [⟨.user, jsTrim input, false⟩]) ++ ext := by
              simp [sendAIMessageResolve, hrm, hst]
            rw [this, hext1]
            simp
          · have : sendAIMessageResolve (.ok data) (sendAIMessagePhase1 (jsTrim input) h)
                = (h ++ [⟨.user, jsTrim input, false⟩]) ++ ext := by
              simp [sendAIMessageResolve, hrm, hst]
            rw [this]
            exact hresclean
      | some m =>
        have hres : sendAIMessageResolve (.ok data) (sendAIMessagePhase1 (jsTrim input) h)
            = ((h ++ [⟨.user, jsTrim input, false⟩]) ++ ext)
              ++ [⟨.assistant, "Bağlantı hatası: " ++ m, false⟩] := by
          simp only [sendAIMessageResolve, hrm, hst]
          rw [removeLoading_clean _ hresclean]
          rfl
        have hresz : countPending (sendAIMessageResolve (.ok data)
            (sendAIMessagePhase1 (jsTrim input) h)) = 0 := by
          rw [hres, countPending_append, hresclean]
          rfl
        cases hext1 : ext with
        | nil =>
          refine ⟨⟨.assistant, "Bağlantı hatası: " ++ m, false⟩, [], ?_, rfl, rfl, hresz⟩
          rw [hres, hext1]
          simp
        | cons a rest =>
          refine ⟨a, rest ++ [⟨.assistant, "Bağlantı hatası: " ++ m, false⟩],
            ?_, (hext a (by rw [hext1]; exact List.mem_cons_self a rest)).1,
            (hext a (by rw [hext1]; exact List.mem_cons_self a rest)).2, hresz⟩
          rw [hres, hext1]
          simp
  · intro profile remote
    simp [sendAIMessage, hne]

/-- Witness for C1 at the concrete message "Merhaba" and a concrete
successful response. -/
theorem sendMessage_pending_invariant_witness :
    jsTrim "Merhaba" ≠ ""
    ∧ countPending ([] : List ConversationEntry) = 0
    ∧ countPending (sendAIMessageResolve (.ok (.obj [("response", .str "Selam")]))
        (sendAIMessagePhase1 (jsTrim "Merhaba") [])) = 0 := by
  refine ⟨by decide, rfl, ?_⟩
  obtain ⟨-, h2, -⟩ := sendMessage_pending_invariant "Merhaba" [] (by decide) rfl
  obtain ⟨a, rest, -, -, -, h5⟩ := h2 (.ok (.obj [("response", .str "Selam")]))
  exact h5

theorem succeeded_pure {α : Type} (a : α) :
    succeeded (pure a : Except String α) = true := rfl

theorem succeeded_ok {α : Type} (a : α) :
    succeeded (Except.ok a : Except String α) = true := rfl

theorem notNullish_iff {v : JsVal} :
    notNullish v = true ↔ v ≠ .null ∧ v ≠ .undefined := by
  cases v <;> simp [notNullish]

theorem formatOption_ok (correct o : JsVal) (h1 : o ≠ .null) (h2 : o ≠ .undefined) :
    succeeded (formatOption correct o) = true := by
  simp [formatOption, getProp_eq_ok o _ h1 h2, ok_bind, succeeded_pure, succeeded_ok]

theorem formatOptionList_ok (correct : JsVal) (os : List JsVal)
    (hos : os.all notNullish = true) :
    succeeded (formatOptionList correct os) = true := by
  induction os with
  | nil => rfl
  | cons o rest ih =>
    simp only [List.all_cons, Bool.and_eq_true] at hos
    obtain ⟨ho1, ho2⟩ := notNullish_iff.mp hos.1
    have hok := formatOption_ok correct o ho1 ho2
    cases hfo : formatOption correct o with
    | error m => rw [hfo] at hok; exact absurd hok (by simp [succeeded])
    | ok s =>
      cases hfl : formatOptionList correct rest with
      | error m =>
        have := ih hos.2
        rw [hfl] at this
        exact absurd this (by simp [succeeded])
      | ok t =>
        simp [formatOptionList, hfo, hfl, ok_bind, succeeded_pure, succeeded_ok]

theorem formatQuestionItem_ok (idx : Nat) (q : JsVal) (hq : questionEntryOk q = true) :
    succeeded (formatQuestionItem idx q) = true := by
  simp only [questionEntryOk, Bool.and_eq_true] at hq
  obtain ⟨h1, h2⟩ := notNullish_iff.mp hq.1
  have hb := hq.2
  simp only [formatQuestionItem, getProp_eq_ok q _ h1 h2, ok_bind]
  cases hop : getPropD q "options" with
  | arr os =>
    rw [hop] at hb
    have := formatOptionList_ok (getPropD q "correct_answer") os hb
    cases hfl : formatOptionList (getPropD q "correct_answer") os with
    | error m => rw [hfl] at this; exact absurd this (by simp [succeeded])
    | ok t => simp [hfl, ok_bind, succeeded_pure, succeeded_ok]
  | null => simp [ok_bind, succeeded_pure, succeeded_ok]
  | undefined => simp [ok_bind, succeeded_pure, succeeded_ok]
  | bool b => simp [ok_bind, succeeded_pure, succeeded_ok]
  | num n => simp [ok_bind, succeeded_pure, succeeded_ok]
  | str s => simp [ok_bind, succeeded_pure, succeeded_ok]
  | obj fs => simp [ok_bind, succeeded_pure, succeeded_ok]

theorem formatQuestionList_ok (i : Nat) (qs : List JsVal)
    (hqs : qs.all questionEntryOk = true) :
    succeeded (formatQuestionList i qs) = true := by
  induction qs generalizing i with
  | nil => rfl
  | cons q rest ih =>
    simp only [List.all_cons, Bool.and_eq_true] at hqs
    have hok := formatQuestionItem_ok i q hqs.1
    cases hfo : formatQuestionItem i q with
    | error m => rw [hfo] at hok; exact absurd hok (by simp [succeeded])
    | ok s =>
      have := ih hqs.2 (i := i + 1)
      cases hfl : formatQuestionList (i + 1) rest with
      | error m => rw [hfl] at this; exact absurd this (by simp [succeeded])
      | ok t => simp [formatQuestionList, hfo, hfl, ok_bind, succeeded_pure, succeeded_ok]

theorem formatStudyPlan_ok (v : JsVal) (h1 : v ≠ .null) (h2 : v ≠ .undefined) :
    succeeded (formatStudyPlan v) = true := by
  simp [formatStudyPlan, getProp_eq_ok v _ h1 h2, ok_bind, succeeded_pure, succeeded_ok]

theorem formatAnalysis_ok (v : JsVal) (h1 : v ≠ .null) (h2 : v ≠ .undefined) :
    succeeded (formatAnalysis v) = true := by
  simp [formatAnalysis, getProp_eq_ok v _ h1 h2, ok_bind, succeeded_pure, succeeded_ok]

theorem searchItemHtml_ok (r : JsVal) (hr : searchEntryOk r = true) :
    succeeded (searchItemHtml r) = true := by
  simp only [searchEntryOk, Bool.and_eq_true] at hr
  obtain ⟨h1, h2⟩ := notNullish_iff.mp hr.1
  have hs := hr.2
  simp only [searchItemHtml, getProp_eq_ok r _ h1 h2, ok_bind]
  cases hsc : getPropD r "relevance_score" with
  | null => simp [ok_bind, succeeded_pure, succeeded_ok]
  | undefined => simp [ok_bind, succeeded_pure, succeeded_ok]
  | num n => simp [ok_bind, succeeded_pure, succeeded_ok]
  | bool b => rw [hsc] at hs; simp [scoreOk] at hs
  | str s => rw [hsc] at hs; simp [scoreOk] at hs
  | arr xs => rw [hsc] at hs; simp [scoreOk] at hs
  | obj fs => rw [hsc] at hs; simp [scoreOk] at hs

theorem searchItemsHtml_ok (items : List JsVal) (hi : items.all searchEntryOk = true) :
    succeeded (searchItemsHtml items) = true := by
  induction items with
  | nil => rfl
  | cons r rest ih =>
    simp only [List.all_cons, Bool.and_eq_true] at hi
    have hok := searchItemHtml_ok r hi.1
    cases hfo : searchItemHtml r with
    | error m => rw [hfo] at hok; exact absurd hok (by simp [succeeded])
    | ok s =>
      have := ih hi.2
      cases hfl : searchItemsHtml rest with
      | error m => rw [hfl] at this; exact absurd this (by simp [succeeded])
      | ok t => simp [searchItemsHtml, hfo, hfl, ok_bind, succeeded_pure, succeeded_ok]

theorem formatSearchResults_ok (v : JsVal) (hp : searchPayloadOk v = true) :
    succeeded (formatSearchResults v) = true := by
  simp only [searchPayloadOk, Bool.and_eq_true] at hp
  obtain ⟨h1, h2⟩ := notNullish_iff.mp hp.1
  have hb := hp.2
  simp only [formatSearchResults, getProp_eq_ok v _ h1 h2, ok_bind]
  cases hrs : getPropD v "results" with
  | arr items =>
    rw [hrs] at hb
    have := searchItemsHtml_ok items hb
    cases hfl : searchItemsHtml items with
    | error m => rw [hfl] at this; exact absurd this (by simp [succeeded])
    | ok t => simp [hfl, ok_bind, succeeded_pure, succeeded_ok]
  | null => simp [ok_bind, succeeded_pure, succeeded_ok]
  | undefined => simp [ok_bind, succeeded_pure, succeeded_ok]
  | bool b => simp [ok_bind, succeeded_pure, succeeded_ok]
  | num n => simp [ok_bind, succeeded_pure, succeeded_ok]
  | str s => simp [ok_bind, succeeded_pure, succeeded_ok]
  | obj fs => simp [ok_bind, succeeded_pure, succeeded_ok]

/-- Counterexample to C8: `formatStudyPlan` is not total — on payload
`null` it throws the `TypeError` from reading `overall_strategy`, so
the operation fails instead of rendering an empty model. -/
theorem formatter_totality_counterexample :
    formatStudyPlan JsVal.null
      = Except.error "Cannot read properties of null: overall_strategy" := rfl

/-- Claim C8 as amended: `formatQuestions` renders the not-found model on
every non-array payload (including `null`) without throwing and never
throws on arrays of non-nullish questions with non-nullish option
entries; `formatStudyPlan` and `formatAnalysis` never throw on any
payload that is not `null`/`undefined`; `formatSearchResults` never
throws on non-nullish payloads whose `results` entries are non-nullish
with nullish-or-numeric scores; but the formatters are not total: a
`null` payload makes `formatStudyPlan`, `formatSearchResults` and
`formatAnalysis` throw, and a `null` element inside a questions array
makes `formatQuestions` throw. -/
theorem formatters_totality_amended :
    (∀ v, isArr v = false → formatQuestions v = Except.ok qNotFound)
    ∧ (∀ qs, qs.all questionEntryOk = true → succeeded (formatQuestions (.arr qs)) = true)
    ∧ (∀ v, v ≠ .null → v ≠ .undefined → succeeded (formatStudyPlan v) = true)
    ∧ (∀ v, v ≠ .null → v ≠ .undefined → succeeded (formatAnalysis v) = true)
    ∧ (∀ v, searchPayloadOk v = true → succeeded (formatSearchResults v) = true)
    ∧ succeeded (formatStudyPlan .null) = false
    ∧ succeeded (formatSearchResults .null) = false
    ∧ succeeded (formatAnalysis .null) = false
    ∧ succeeded (formatQuestions (.arr [.null])) = false := by
  refine ⟨?_, ?_, formatStudyPlan_ok, formatAnalysis_ok, formatSearchResults_ok,
    rfl, rfl, rfl, rfl⟩
  · intro v hv
    cases v <;> first | rfl | simp [isArr] at hv
  · intro qs hqs
    have := formatQuestionList_ok 0 qs hqs
    cases hfl : formatQuestionList 0 qs with
    | error m => rw [hfl] at this; exact absurd this (by simp [succeeded])
    | ok t => simp [formatQuestions, hfl, ok_bind, succeeded_pure, succeeded_ok]

/-- Witness for the amended C8 at concrete malformed payloads. -/
theorem formatters_totality_amended_witness :
    isArr JsVal.null = false
    ∧ formatQuestions JsVal.null = Except.ok qNotFound
    ∧ searchPayloadOk (JsVal.obj []) = true
    ∧ succeeded (formatSearchResults (JsVal.obj [])) = true
    ∧ succeeded (formatStudyPlan (JsVal.obj [])) = true :=
  ⟨rfl, formatters_totality_amended.1 .null rfl, rfl,
   formatters_totality_amended.2.2.2.2.1 (.obj []) rfl,
   formatters_totality_amended.2.2.1 (.obj []) (by simp) (by simp)⟩
